import Mathlib

/-!
# Verification of the trip-page pipeline (`src/js/trip.js`)

A shallow embedding of the data-normalisation and metrics pipeline of
`trip.js`: the geometry extractor (`extractCoords`,
`extractCoordsFromGeometry`, `getFirstFeatureProps`), the day loader
(`loadDayGeoJSON`), the concurrent aggregator (`loadAllDays` /
`Promise.all`), and the totals computation of `initTripPage`.

JSON values (the payloads of `res.json()` and the entries of `meta.days`)
are modelled by the inductive type `JSValue`.  JavaScript numbers are
modelled as rationals (no claim here depends on floating-point rounding,
and `JSON.parse` only produces finite numbers).  A missing object field
(JavaScript `undefined`) is modelled by `Option.none` at lookup time.
Statements that can raise a `TypeError` in JavaScript (property access on
`null`, `for...of` over a non-iterable, `.flat()` on a non-array) are
modelled with `Except String`; the message strings are this model's
human-readable stand-ins for the engine's wording.

The external metric functions `calcDistance` and `calcElevationGain`
(defined in another file of the repository, not under `src/`) are taken
as parameters wherever `trip.js` calls them, so every theorem about the
loader holds for an arbitrary metric calculator unless stated otherwise.
-/

/-- A JavaScript JSON value (output of `JSON.parse`): `null`, booleans,
finite numbers (modelled as rationals), strings, arrays and objects.
Object field lists are assumed to carry distinct keys, as produced by
`JSON.parse` (for duplicate keys the last one wins; we keep one). -/
inductive JSValue where
  | null
  | bool (b : Bool)
  | num (q : ℚ)
  | str (s : String)
  | arr (elems : List JSValue)
  | obj (fields : List (String × JSValue))

namespace JSValue

/-- JavaScript truthiness of a JSON value: `null`, `false`, `0` and `""`
are falsy; every array and object is truthy. -/
def jsTruthy : JSValue → Bool
  | .null => false
  | .bool b => b
  | .num q => decide (q ≠ 0)
  | .str s => decide (s ≠ "")
  | .arr _ => true
  | .obj _ => true

end JSValue

open JSValue

/-- First value bound to `key` in an object field list (`none` = the field
is absent, i.e. JavaScript `undefined`). -/
def lookupField : List (String × JSValue) → String → Option JSValue
  | [], _ => none
  | (k, v) :: rest, key => if k = key then some v else lookupField rest key

/-- Property access `v.key` on a value known to be neither `null` nor
`undefined`: objects look the key up, every other value yields
`undefined` (`none`) for the string keys used by `trip.js`. -/
def jsGetField (v : JSValue) (key : String) : Option JSValue :=
  match v with
  | .obj fields => lookupField fields key
  | _ => none

/-- `x || d` where `x` may be `undefined` (`none`): the left value when it
is truthy, otherwise the default. -/
def jsOr (x : Option JSValue) (d : JSValue) : JSValue :=
  match x with
  | some v => if jsTruthy v then v else d
  | none => d

/-- `x != null ? x : d` where `x` may be `undefined`: the left value when
it is neither `null` nor `undefined`, otherwise the default. -/
def jsNonNull (x : Option JSValue) (d : JSValue) : JSValue :=
  match x with
  | some .null => d
  | some v => v
  | none => d

/-- Index access `v[0]` (used by `getFirstFeatureProps`): arrays index
their elements, strings their characters, objects look up the numeric
key as a string; other values yield `undefined`. -/
def jsIndex (v : JSValue) (i : Nat) : Option JSValue :=
  match v with
  | .arr xs => xs.get? i
  | .str s => (s.data.get? i).map (fun ch => .str (String.mk [ch]))
  | .obj fields => lookupField fields (toString i)
  | _ => none

/-- The `.length` property as read by `if (c.length)`: defined for arrays
and strings, `undefined` for everything else. -/
def jsLengthVal (v : JSValue) : Option JSValue :=
  match v with
  | .arr xs => some (.num xs.length)
  | .str s => some (.num s.length)
  | _ => none

/-- Truthiness of a possibly-`undefined` value. -/
def optTruthy (x : Option JSValue) : Bool :=
  match x with
  | some v => jsTruthy v
  | none => false

/-- The strict comparison `v.type === t` for a string literal `t`. -/
def typeIs (v : JSValue) (t : String) : Bool :=
  match jsGetField v "type" with
  | some (.str s) => s = t
  | _ => false

/-- `for (const x of v)`: arrays iterate their elements, non-empty strings
their characters; any other truthy value is not iterable and raises a
`TypeError`.  (Falsy values never reach this point in `trip.js` because
of the `|| []` defaults.) -/
def jsIterate (v : JSValue) : Except String (List JSValue) :=
  match v with
  | .arr xs => .ok xs
  | .str s => .ok (s.data.map (fun ch => .str (String.mk [ch])))
  | .null => .ok []
  | .bool false => .ok []
  | _ => .error "TypeError: value is not iterable"

/-- `Array.prototype.flat()` with default depth 1: array elements are
spliced in, non-array elements are kept. -/
def jsFlat1 (xs : List JSValue) : List JSValue :=
  xs.flatMap (fun v => match v with | .arr ys => ys | v => [v])

/-- `extractCoordsFromGeometry(geometry)` from `trip.js` (lines 191-196).
The argument may be `undefined` (`none`).  Returns the JavaScript value
the function returns (an array in all well-formed cases), or the
`TypeError` raised by `.flat()` on a truthy non-array `coordinates`. -/
def extractCoordsFromGeometry (geometry : Option JSValue) : Except String JSValue :=
  match geometry with
  | none => .ok (.arr [])
  | some g =>
    if jsTruthy g then
      match jsGetField g "type" with
      | some (.str t) =>
        if t = "LineString" then
          .ok (jsOr (jsGetField g "coordinates") (.arr []))
        else if t = "MultiLineString" then
          match jsOr (jsGetField g "coordinates") (.arr []) with
          | .arr xs => .ok (.arr (jsFlat1 xs))
          | _ => .error "TypeError: flat is not a function"
        else .ok (.arr [])
      | _ => .ok (.arr [])
    else .ok (.arr [])

/-- The `for (const feature of ...)` loop body of `extractCoords`
(lines 178-181): return the first feature whose geometry yields a
sequence with truthy `.length`; accessing `.geometry` on a `null`
feature raises a `TypeError`. -/
def featureScan : List JSValue → Except String (Option JSValue)
  | [] => .ok none
  | f :: rest =>
    match f with
    | .null => .error "TypeError: cannot read geometry of null"
    | f =>
      match extractCoordsFromGeometry (jsGetField f "geometry") with
      | .error e => .error e
      | .ok c => if optTruthy (jsLengthVal c) then .ok (some c) else featureScan rest

/-- `extractCoords(geojson)` from `trip.js` (lines 174-189): falsy input
yields `[]`; a `FeatureCollection` scans its features for the first
non-empty coordinate sequence and otherwise falls through; a `Feature`
delegates to its geometry; anything else is treated as a bare geometry. -/
def extractCoords (geojson : JSValue) : Except String JSValue :=
  if jsTruthy geojson then
    match
      (if typeIs geojson "FeatureCollection" then
        match jsIterate (jsOr (jsGetField geojson "features") (.arr [])) with
        | .error e => .error e
        | .ok fs => featureScan fs
      else .ok none : Except String (Option JSValue)) with
    | .error e => .error e
    | .ok (some c) => .ok c
    | .ok none =>
      if typeIs geojson "Feature" then
        extractCoordsFromGeometry (jsGetField geojson "geometry")
      else
        extractCoordsFromGeometry (some geojson)
  else .ok (.arr [])

/-- `getFirstFeatureProps(geojson)` from `trip.js` (lines 198-205):
`(geojson.features && geojson.features[0] && geojson.features[0].properties) || null`
for a `FeatureCollection`, `geojson.properties || null` for a `Feature`,
`null` otherwise.  `none` models the `null` result. -/
def getFirstFeatureProps (geojson : JSValue) : Option JSValue :=
  if jsTruthy geojson then
    if typeIs geojson "FeatureCollection" then
      match jsGetField geojson "features" with
      | none => none
      | some fs =>
        if jsTruthy fs then
          match jsIndex fs 0 with
          | none => none
          | some f0 =>
            if jsTruthy f0 then
              match jsGetField f0 "properties" with
              | none => none
              | some p => if jsTruthy p then some p else none
            else none
        else none
    else if typeIs geojson "Feature" then
      match jsGetField geojson "properties" with
      | none => none
      | some p => if jsTruthy p then some p else none
    else none
  else none

/-! ## Well-formed GeoJSON (specification side)

The specification (§3, §4.1) describes the inputs the extractor is meant
for: a `FeatureCollection`, a `Feature`, or a bare geometry whose kind is
`LineString` or `MultiLineString`, with coordinates that are pairs or
triples `[longitude, latitude, elevation?]`.  The types below follow that
wording; `toJS` renders them as the JSON values `trip.js` receives, and
`specCoords` is the extraction the specification prescribes, to be
compared with `extractCoords` above. -/

/-- A GeoJSON position `[longitude, latitude, elevation?]`. -/
structure Position where
  lon : ℚ
  lat : ℚ
  ele : Option ℚ

/-- The JSON rendering of a position. -/
def Position.toJS (p : Position) : JSValue :=
  .arr ([.num p.lon, .num p.lat] ++ (match p.ele with
    | some e => [.num e]
    | none => []))

/-- A GeoJSON geometry: `LineString`, `MultiLineString`, or some other
kind (`Point`, `Polygon`, ...), which the pipeline does not consider. -/
inductive GeomKind where
  | lineString (coords : List Position)
  | multiLineString (parts : List (List Position))
  | otherKind (tag : String)

/-- The JSON rendering of a geometry. -/
def GeomKind.toJS : GeomKind → JSValue
  | .lineString cs =>
    .obj [("type", .str "LineString"), ("coordinates", .arr (cs.map Position.toJS))]
  | .multiLineString ps =>
    .obj [("type", .str "MultiLineString"),
          ("coordinates", .arr (ps.map (fun cs => .arr (cs.map Position.toJS))))]
  | .otherKind t => .obj [("type", .str t)]

/-- A well-formed unconsidered geometry kind does not reuse one of the
four type tags the extractor dispatches on. -/
def GeomKind.tagOK : GeomKind → Bool
  | .otherKind t =>
    !(t == "LineString" || t == "MultiLineString" || t == "Feature"
      || t == "FeatureCollection")
  | _ => true

/-- A GeoJSON feature: a geometry (possibly `null`) plus arbitrary
properties. -/
structure GeoFeature where
  geometry : Option GeomKind
  properties : JSValue

/-- The JSON rendering of a feature. -/
def GeoFeature.toJS (f : GeoFeature) : JSValue :=
  .obj [("type", .str "Feature"),
        ("geometry", match f.geometry with
          | some g => g.toJS
          | none => .null),
        ("properties", f.properties)]

def GeoFeature.tagOK (f : GeoFeature) : Bool :=
  match f.geometry with
  | some g => g.tagOK
  | none => true

/-- A well-formed GeoJSON value as described in §3 of the specification. -/
inductive GeoJSON where
  | featureCollection (features : List GeoFeature)
  | feature (f : GeoFeature)
  | bare (g : GeomKind)

/-- The JSON rendering of a GeoJSON value. -/
def GeoJSON.toJS : GeoJSON → JSValue
  | .featureCollection fs =>
    .obj [("type", .str "FeatureCollection"), ("features", .arr (fs.map GeoFeature.toJS))]
  | .feature f => f.toJS
  | .bare g => g.toJS

/-- All geometry kinds occurring in the value carry honest type tags. -/
def GeoJSON.tagsOK : GeoJSON → Bool
  | .featureCollection fs => fs.all GeoFeature.tagOK
  | .feature f => f.tagOK
  | .bare g => g.tagOK

/-- The coordinate sequence the specification prescribes for a geometry:
a `LineString`'s coordinates unchanged, a `MultiLineString`'s member
sequences concatenated in listed order, and empty for any other kind. -/
def GeomKind.specCoords : GeomKind → List JSValue
  | .lineString cs => cs.map Position.toJS
  | .multiLineString ps => (ps.map (fun cs => cs.map Position.toJS)).flatten
  | .otherKind _ => []

/-- The extraction of a feature: that of its geometry, empty for a `null`
geometry. -/
def GeoFeature.specCoords (f : GeoFeature) : List JSValue :=
  match f.geometry with
  | some g => g.specCoords
  | none => []

/-- The specification's scan of a feature list: the coordinate sequence of
the first feature whose geometry yields a non-empty sequence, earlier
unsupported or empty features skipped, `none` when no feature yields. -/
def specScan : List GeoFeature → Option (List JSValue)
  | [] => none
  | f :: rest =>
    match f.specCoords with
    | [] => specScan rest
    | cs => some cs

/-- The coordinate sequence the specification prescribes for a GeoJSON
value (§4.1). -/
def GeoJSON.specCoords : GeoJSON → List JSValue
  | .featureCollection fs => (specScan fs).getD []
  | .feature f => f.specCoords
  | .bare g => g.specCoords

/-! ## The day loader (`loadDayGeoJSON`, lines 119-171) -/

/-- The outcome of `fetch(url)` followed by `res.json()` for one resource:
the promise rejects (network error), the response has a non-success
status (`!res.ok`), the body fails to parse as JSON, or a JSON value is
obtained. -/
inductive FetchOutcome where
  | networkError (msg : String)
  | httpError (status : Nat)
  | parseError (msg : String)
  | success (json : JSValue)

/-- The per-day result record built by `loadDayGeoJSON` (lines 127-137).
`geojson = none` and `error = none` model the `null` initial values.
The `url` string (line 126) is the template interpolation of
`dataRoot`, `tripId` and `filename` and carries no logic, so it is not
modelled as a separate field. -/
structure DayResult where
  index : Nat
  filename : Option JSValue
  ok : Bool
  geojson : Option JSValue
  dayNumber : JSValue
  distance : JSValue
  elevation : JSValue
  error : Option String

/-- `typeof entry === 'object' && entry !== null` (line 121): objects and
arrays are `typeof 'object'`; `null` is excluded explicitly. -/
def jsIsNewFormat (entry : JSValue) : Bool :=
  match entry with
  | .obj _ => true
  | .arr _ => true
  | _ => false

/-- The `distance_miles` / `elevation_gain_ft` value embedded in the first
feature's properties of a parsed geometry (the `props && props.key`
reads on lines 157-162): `none` when the properties are `null` or the
field is absent. -/
def embeddedProp (geojson : JSValue) (key : String) : Option JSValue :=
  match getFirstFeatureProps geojson with
  | some p => jsGetField p key
  | none => none

/-- `loadDayGeoJSON(tripId, dataRoot, entry, index)` from `trip.js`
(lines 119-171), with the network interaction abstracted into a
`FetchOutcome` and the external metric functions `calcDistance` and
`calcElevationGain` taken as parameters.  The `try` block's partial
mutations are modelled exactly: `geojson` and `ok` are set as soon as
the body parses (lines 143-144), so a `TypeError` raised later by
`extractCoords` is caught with `ok` still `true` and only `error` set. -/
def loadDayGeoJSON (calcDistance calcElevationGain : JSValue → JSValue)
    (entry : JSValue) (index : Nat) (fetch : FetchOutcome) : DayResult :=
  let isNewFormat := jsIsNewFormat entry
  let filename := if isNewFormat then jsGetField entry "file" else some entry
  let manualDist := if isNewFormat then jsGetField entry "distance_miles" else some .null
  let manualElev := if isNewFormat then jsGetField entry "elevation_gain_ft" else some .null
  let base : DayResult :=
    { index := index, filename := filename, ok := false, geojson := none,
      dayNumber := .num ((index : ℚ) + 1), distance := .num 0, elevation := .num 0,
      error := none }
  match fetch with
  | .networkError msg => { base with error := some msg }
  | .httpError status => { base with error := some ("HTTP " ++ toString status) }
  | .parseError msg => { base with error := some msg }
  | .success geojson =>
    let r1 := { base with geojson := some geojson, ok := true }
    let props := getFirstFeatureProps geojson
    let dayProp := match props with
      | some p => jsGetField p "day"
      | none => none
    let r2 := { r1 with dayNumber := jsNonNull dayProp (.num ((index : ℚ) + 1)) }
    if isNewFormat then
      { r2 with
        distance := jsNonNull manualDist (.num 0),
        elevation := jsNonNull manualElev (.num 0) }
    else
      match extractCoords geojson with
      | .error e => { r2 with error := some e }
      | .ok coords =>
        { r2 with
          distance := jsNonNull (embeddedProp geojson "distance_miles")
                        (calcDistance coords),
          elevation := jsNonNull (embeddedProp geojson "elevation_gain_ft")
                        (calcElevationGain coords) }

/-! ## The concurrent aggregator (`loadAllDays`, lines 96-101)

`loadAllDays` maps `loadDayGeoJSON` over the entries with their indices
and joins the promises with `Promise.all`.  `loadAllDaysFrom` is the
indexed map; `Promise.all` returns results in argument order, which the
plain `loadAllDays` reflects directly.  `loadAllDaysSched` additionally
models the scheduling freedom of the runtime: the fetches settle in an
arbitrary completion order (a permutation of the indices) and
`Promise.all` reassembles the results by original position. -/

/-- `dayFiles.map((entry, index) => loadDayGeoJSON(...))` starting at a
given index. -/
def loadAllDaysFrom (calcDistance calcElevationGain : JSValue → JSValue)
    (fetch : Nat → FetchOutcome) : Nat → List JSValue → List DayResult
  | _, [] => []
  | i, entry :: rest =>
    loadDayGeoJSON calcDistance calcElevationGain entry i (fetch i)
      :: loadAllDaysFrom calcDistance calcElevationGain fetch (i + 1) rest

/-- `loadAllDays(tripId, dataRoot, dayFiles)` (lines 96-101): the ordered
list of day results. -/
def loadAllDays (calcDistance calcElevationGain : JSValue → JSValue)
    (dayFiles : List JSValue) (fetch : Nat → FetchOutcome) : List DayResult :=
  loadAllDaysFrom calcDistance calcElevationGain fetch 0 dayFiles

/-- The tasks as they settle under a given completion order: task `i`
finishes when `i` comes up in `order`, carrying its original index. -/
def settleInOrder (tasks : List DayResult) (order : List Nat) : List (Nat × DayResult) :=
  order.filterMap (fun i => (tasks.get? i).map (fun r => (i, r)))

/-- `Promise.all`'s order-preserving join: slot `i` of the output receives
the settled result whose original index is `i`, regardless of where it
appears in the completion sequence. -/
def reassembleByIndex (n : Nat) (completed : List (Nat × DayResult)) : List DayResult :=
  (List.range n).filterMap (fun i => (completed.find? (fun p => p.1 == i)).map Prod.snd)

/-- `loadAllDays` under an explicit completion order of the underlying
fetches. -/
def loadAllDaysSched (calcDistance calcElevationGain : JSValue → JSValue)
    (dayFiles : List JSValue) (fetch : Nat → FetchOutcome) (order : List Nat) :
    List DayResult :=
  reassembleByIndex dayFiles.length
    (settleInOrder (loadAllDays calcDistance calcElevationGain dayFiles fetch) order)

/-! ## Trip totals (`initTripPage`, lines 66-83) -/

/-- The aggregate record computed by `initTripPage`: total distance and
elevation over the `ok` days and the vert-per-mile ratio, `none` when
`totalDistance > 0` fails (the page shows an em dash).  The page
displays rounded/formatted strings; the underlying quotient is modelled. -/
structure TripTotals where
  totalDistance : ℚ
  totalElevation : ℚ
  vertPerMile : Option ℚ

/-- The `+=` accumulation of lines 71-74 on the modelled numeric fragment:
adding a non-number would leave JavaScript's number semantics (string
concatenation, `NaN`), which no value produced by a well-formed trip
reaches; such a sum is `none`. -/
def sumNums (vs : List JSValue) : Option ℚ :=
  vs.foldl
    (fun acc v =>
      match acc, v with
      | some a, .num b => some (a + b)
      | _, _ => none)
    (some 0)

/-- Lines 66-83 of `initTripPage`: filter the `ok` days, accumulate
distance and elevation, and derive vert-per-mile under the
`totalDistance > 0` guard. -/
def computeTotals (dayResults : List DayResult) : Option TripTotals :=
  let validDays := dayResults.filter (fun d => d.ok)
  match sumNums (validDays.map (fun d => d.distance)),
        sumNums (validDays.map (fun d => d.elevation)) with
  | some d, some e =>
    some { totalDistance := d, totalElevation := e,
           vertPerMile := if 0 < d then some (e / d) else none }
  | _, _ => none

/-! ## The page pipeline (`initTripPage`, lines 31-93) -/

/-- The observable outcome of `initTripPage`: a metadata-level error
(header not rendered), an uncaught `TypeError` (`meta` parsed to
`null`, so `meta.title` throws), the configuration-level map error with
the header rendered and no day loaded, or the fully rendered page.
`headerTitle` is `meta.title || tripId` (line 45); the remaining header
fields are formatted by helpers outside `src/` and carry no decision
logic. -/
inductive PageOutcome where
  | metaError (msg : String)
  | crashed (msg : String)
  | configError (headerTitle : JSValue) (errMsg : String)
  | rendered (headerTitle : JSValue) (results : List DayResult) (totals : Option TripTotals)

/-- `initTripPage(tripId, dataRoot)` (lines 31-93) with both the metadata
fetch and the per-day fetches abstracted as outcomes: a metadata
failure aborts; `meta.days` is used only when `Array.isArray` accepts
it (line 58); an empty day list reports the map configuration error
(lines 59-62) without touching any day resource; otherwise the days are
loaded and the totals computed. -/
def initTripPage (calcDistance calcElevationGain : JSValue → JSValue)
    (tripId dataRoot : String) (metaFetch : FetchOutcome)
    (dayFetch : Nat → FetchOutcome) : PageOutcome :=
  match metaFetch with
  | .networkError msg => .metaError msg
  | .httpError status =>
    .metaError ("HTTP " ++ toString status ++ " fetching "
      ++ dataRoot ++ "/" ++ tripId ++ "/meta.json")
  | .parseError msg => .metaError msg
  | .success meta =>
    match meta with
    | .null => .crashed "TypeError: cannot read title of null"
    | meta =>
      let headerTitle := jsOr (jsGetField meta "title") (.str tripId)
      let dayFiles : List JSValue :=
        match jsGetField meta "days" with
        | some (.arr xs) => xs
        | _ => []
      if dayFiles.length = 0 then
        .configError headerTitle "No day files listed in meta.json."
      else
        let dayResults := loadAllDays calcDistance calcElevationGain dayFiles dayFetch
        .rendered headerTitle dayResults (computeTotals dayResults)

/-! ## Small predicates used in the statements -/

/-- `v` is a JavaScript number. -/
def isNumVal : JSValue → Bool
  | .num _ => true
  | _ => false

/-- The rational carried by a number value (`0` for non-numbers; only
applied under an `isNumVal` guard). -/
def numValOf : JSValue → ℚ
  | .num q => q
  | _ => 0

/-- `v` is a non-negative JavaScript number. -/
def NonnegNum (v : JSValue) : Prop :=
  ∃ q : ℚ, v = .num q ∧ 0 ≤ q

/-- `Array.isArray(meta.days)` (line 58). -/
def daysIsArray (meta : JSValue) : Bool :=
  match jsGetField meta "days" with
  | some (.arr _) => true
  | _ => false

/-- A `FeatureCollection` whose `features` array contains a `null` entry:
`JSON.parse` accepts it, but the extractor's loop dereferences
`feature.geometry` on it. -/
def fcWithNullFeature : JSValue :=
  .obj [("type", .str "FeatureCollection"), ("features", .arr [.null])]

/-- A `FeatureCollection` whose first feature carries embedded
`distance_miles`/`elevation_gain_ft` properties but an unsupported
geometry, followed by a `null` entry: the scan skips the first feature
and then dereferences the `null` one. -/
def fcEmbeddedThenNull : JSValue :=
  .obj [("type", .str "FeatureCollection"),
        ("features", .arr [
          .obj [("type", .str "Feature"),
                ("properties", .obj [("distance_miles", .num 5),
                                     ("elevation_gain_ft", .num 100)]),
                ("geometry", .null)],
          .null])]

/-! ## Lemmas: the extractor on well-formed GeoJSON -/

theorem jsFlat1_map_arr (ps : List (List Position)) :
    jsFlat1 (ps.map (fun cs => JSValue.arr (cs.map Position.toJS)))
      = (ps.map (fun cs => cs.map Position.toJS)).flatten := by
  induction ps with
  | nil => rfl
  | cons p rest ih =>
    simp only [jsFlat1] at ih
    simp only [jsFlat1, List.map_cons, List.flatMap_cons, List.flatten_cons, ih]

theorem extractCoordsFromGeometry_toJS (g : GeomKind) (h : g.tagOK = true) :
    extractCoordsFromGeometry (some g.toJS) = .ok (.arr g.specCoords) := by
  cases g with
  | lineString cs => rfl
  | multiLineString ps =>
    have hred : extractCoordsFromGeometry (some (GeomKind.multiLineString ps).toJS)
        = .ok (.arr (jsFlat1 (ps.map (fun cs => JSValue.arr (cs.map Position.toJS))))) := rfl
    rw [hred, jsFlat1_map_arr]
    rfl
  | otherKind t =>
    simp only [GeomKind.tagOK, Bool.not_eq_true', Bool.or_eq_false_iff, beq_eq_false_iff_ne,
      ne_eq] at h
    obtain ⟨⟨⟨h1, h2⟩, h3⟩, h4⟩ := h
    simp [extractCoordsFromGeometry, GeomKind.toJS, jsGetField, lookupField, jsTruthy,
      GeomKind.specCoords, h1, h2]

theorem extractCoordsFromGeometry_featureJS (f : GeoFeature) (h : f.tagOK = true) :
    extractCoordsFromGeometry (jsGetField f.toJS "geometry")
      = .ok (.arr f.specCoords) := by
  cases hg : f.geometry with
  | none =>
    simp [GeoFeature.toJS, jsGetField, lookupField, hg, extractCoordsFromGeometry,
      jsTruthy, GeoFeature.specCoords]
  | some g =>
    have hgt : g.tagOK = true := by
      unfold GeoFeature.tagOK at h
      rw [hg] at h
      exact h
    have : jsGetField f.toJS "geometry" = some g.toJS := by
      simp [GeoFeature.toJS, jsGetField, lookupField, hg]
    rw [this, extractCoordsFromGeometry_toJS g hgt]
    simp [GeoFeature.specCoords, hg]

theorem featureScan_toJS (fs : List GeoFeature) (h : fs.all GeoFeature.tagOK = true) :
    featureScan (fs.map GeoFeature.toJS)
      = .ok ((specScan fs).map (fun cs => JSValue.arr cs)) := by
  induction fs with
  | nil => rfl
  | cons f rest ih =>
    rw [List.all_cons, Bool.and_eq_true] at h
    obtain ⟨hf, hrest⟩ := h
    have hfe := extractCoordsFromGeometry_featureJS f hf
    have hobj : f.toJS = JSValue.obj
        [("type", .str "Feature"),
         ("geometry", match f.geometry with
           | some g => g.toJS
           | none => .null),
         ("properties", f.properties)] := rfl
    rw [List.map_cons]
    rw [show featureScan (f.toJS :: rest.map GeoFeature.toJS)
        = (match extractCoordsFromGeometry (jsGetField f.toJS "geometry") with
           | .error e => .error e
           | .ok c => if optTruthy (jsLengthVal c) then .ok (some c)
                      else featureScan (rest.map GeoFeature.toJS)) from by rw [hobj]; rfl]
    rw [hfe]
    cases hc : f.specCoords with
    | nil =>
      have hlen : optTruthy (jsLengthVal (.arr ([] : List JSValue))) = false := by
        simp [jsLengthVal, optTruthy, jsTruthy]
      dsimp only
      rw [hlen]
      simp only [if_false, Bool.false_eq_true]
      rw [ih hrest]
      simp [specScan, hc]
    | cons c cs =>
      have hlen : optTruthy (jsLengthVal (.arr (c :: cs))) = true := by
        simp only [jsLengthVal, optTruthy, jsTruthy, List.length_cons, ne_eq,
          decide_eq_true_eq]
        push_cast
        positivity
      dsimp only
      rw [hlen]
      simp [specScan, hc]

theorem extractCoords_toJS (g : GeoJSON) (h : g.tagsOK = true) :
    extractCoords g.toJS = .ok (.arr g.specCoords) := by
  cases g with
  | featureCollection fs =>
    have hscan := featureScan_toJS fs (by simpa [GeoJSON.tagsOK] using h)
    show extractCoords (JSValue.obj [("type", .str "FeatureCollection"),
      ("features", .arr (fs.map GeoFeature.toJS))]) = _
    rw [show extractCoords (JSValue.obj [("type", .str "FeatureCollection"),
          ("features", .arr (fs.map GeoFeature.toJS))])
        = (match featureScan (fs.map GeoFeature.toJS) with
           | .error e => .error e
           | .ok (some c) => .ok c
           | .ok none => .ok (.arr [])) from rfl]
    rw [hscan]
    cases hs : specScan fs with
    | none => simp [GeoJSON.specCoords, hs]
    | some cs => simp [GeoJSON.specCoords, hs]
  | feature f =>
    have hfe := extractCoordsFromGeometry_featureJS f (by simpa [GeoJSON.tagsOK] using h)
    show extractCoords f.toJS = .ok (.arr f.specCoords)
    rw [show extractCoords f.toJS
        = extractCoordsFromGeometry (jsGetField f.toJS "geometry") from by
      show extractCoords (JSValue.obj _) = _
      rfl]
    exact hfe
  | bare gk =>
    have hgt : gk.tagOK = true := by simpa [GeoJSON.tagsOK] using h
    have hge := extractCoordsFromGeometry_toJS gk hgt
    cases gk with
    | lineString cs =>
      show extractCoords (GeomKind.lineString cs).toJS = _
      rw [show extractCoords (GeomKind.lineString cs).toJS
          = extractCoordsFromGeometry (some (GeomKind.lineString cs).toJS) from rfl]
      exact hge
    | multiLineString ps =>
      rw [show extractCoords (GeoJSON.bare (GeomKind.multiLineString ps)).toJS
          = extractCoordsFromGeometry (some (GeomKind.multiLineString ps).toJS) from rfl]
      exact hge
    | otherKind t =>
      simp only [GeomKind.tagOK, Bool.not_eq_true', Bool.or_eq_false_iff,
        beq_eq_false_iff_ne, ne_eq] at hgt
      obtain ⟨⟨⟨h1, h2⟩, h3⟩, h4⟩ := hgt
      rw [show (GeoJSON.bare (GeomKind.otherKind t)).toJS
          = JSValue.obj [("type", .str t)] from rfl]
      rw [show extractCoords (JSValue.obj [("type", .str t)])
          = (if typeIs (JSValue.obj [("type", .str t)]) "FeatureCollection" then
               match jsIterate (jsOr (jsGetField (JSValue.obj [("type", .str t)]) "features") (.arr [])) with
               | .error e => .error e
               | .ok fs =>
                 match featureScan fs with
                 | .error e => .error e
                 | .ok (some c) => .ok c
                 | .ok none =>
                   if typeIs (JSValue.obj [("type", .str t)]) "Feature" then
                     extractCoordsFromGeometry (jsGetField (JSValue.obj [("type", .str t)]) "geometry")
                   else extractCoordsFromGeometry (some (JSValue.obj [("type", .str t)]))
             else
               if typeIs (JSValue.obj [("type", .str t)]) "Feature" then
                 extractCoordsFromGeometry (jsGetField (JSValue.obj [("type", .str t)]) "geometry")
               else extractCoordsFromGeometry (some (JSValue.obj [("type", .str t)]))) from by
        unfold extractCoords
        simp [jsTruthy]
        cases htc : typeIs (JSValue.obj [("type", .str t)]) "FeatureCollection" <;> rfl]
      have htFC : typeIs (JSValue.obj [("type", .str t)]) "FeatureCollection" = false := by
        simp [typeIs, jsGetField, lookupField, h4]
      have htF : typeIs (JSValue.obj [("type", .str t)]) "Feature" = false := by
        simp [typeIs, jsGetField, lookupField, h3]
      rw [htFC, if_neg (by simp), htF, if_neg (by simp)]
      exact hge

/-! ## Lemmas: the per-day map and the order-preserving join -/

theorem loadAllDaysFrom_length (calcD calcE : JSValue → JSValue)
    (fetch : Nat → FetchOutcome) :
    ∀ (entries : List JSValue) (i : Nat),
      (loadAllDaysFrom calcD calcE fetch i entries).length = entries.length := by
  intro entries
  induction entries with
  | nil => intro i; rfl
  | cons e rest ih => intro i; simp [loadAllDaysFrom, ih]

theorem loadAllDaysFrom_get? (calcD calcE : JSValue → JSValue)
    (fetch : Nat → FetchOutcome) :
    ∀ (entries : List JSValue) (i j : Nat),
      (loadAllDaysFrom calcD calcE fetch i entries).get? j
        = (entries.get? j).map
            (fun e => loadDayGeoJSON calcD calcE e (i + j) (fetch (i + j))) := by
  intro entries
  induction entries with
  | nil => intro i j; rfl
  | cons e rest ih =>
    intro i j
    cases j with
    | zero => rfl
    | succ j =>
      show (loadAllDaysFrom calcD calcE fetch (i + 1) rest).get? j = _
      rw [ih (i + 1) j]
      have harith : i + 1 + j = i + (j + 1) := by omega
      rw [harith]
      rfl

theorem loadAllDays_get? (calcD calcE : JSValue → JSValue)
    (dayFiles : List JSValue) (fetch : Nat → FetchOutcome) (j : Nat) :
    (loadAllDays calcD calcE dayFiles fetch).get? j
      = (dayFiles.get? j).map (fun e => loadDayGeoJSON calcD calcE e j (fetch j)) := by
  have h := loadAllDaysFrom_get? calcD calcE fetch dayFiles 0 j
  simpa [loadAllDays] using h

theorem loadAllDays_length (calcD calcE : JSValue → JSValue)
    (dayFiles : List JSValue) (fetch : Nat → FetchOutcome) :
    (loadAllDays calcD calcE dayFiles fetch).length = dayFiles.length :=
  loadAllDaysFrom_length calcD calcE fetch dayFiles 0

theorem loadDayGeoJSON_index (calcD calcE : JSValue → JSValue)
    (entry : JSValue) (index : Nat) (fetch : FetchOutcome) :
    (loadDayGeoJSON calcD calcE entry index fetch).index = index := by
  cases fetch with
  | networkError msg => rfl
  | httpError status => rfl
  | parseError msg => rfl
  | success geojson =>
    unfold loadDayGeoJSON
    cases jsIsNewFormat entry with
    | true => rfl
    | false =>
      dsimp only
      cases extractCoords geojson <;> rfl

theorem find?_settleInOrder (tasks : List DayResult) (i : Nat) (y : DayResult)
    (hy : tasks.get? i = some y) :
    ∀ (order : List Nat), i ∈ order →
      (settleInOrder tasks order).find? (fun p => p.1 == i) = some (i, y) := by
  intro order
  induction order with
  | nil => intro h; cases h
  | cons j rest ih =>
    intro hmem
    by_cases hij : j = i
    · subst hij
      have hy2 : tasks[j]? = some y := by rw [← List.get?_eq_getElem?]; exact hy
      have hstep : settleInOrder tasks (j :: rest) = (j, y) :: settleInOrder tasks rest := by
        simp [settleInOrder, List.filterMap_cons, hy2]
      rw [hstep, List.find?_cons_of_pos _ (by simp)]
    · have hmem' : i ∈ rest := by
        cases List.mem_cons.mp hmem with
        | inl h => exact absurd h.symm hij
        | inr h => exact h
      cases hjz : tasks.get? j with
      | none =>
        have hjz2 : tasks[j]? = none := by rw [← List.get?_eq_getElem?]; exact hjz
        have hstep : settleInOrder tasks (j :: rest) = settleInOrder tasks rest := by
          simp [settleInOrder, List.filterMap_cons, hjz2]
        rw [hstep]
        exact ih hmem'
      | some z =>
        have hjz2 : tasks[j]? = some z := by rw [← List.get?_eq_getElem?]; exact hjz
        have hstep : settleInOrder tasks (j :: rest)
            = (j, z) :: settleInOrder tasks rest := by
          simp [settleInOrder, List.filterMap_cons, hjz2]
        rw [hstep, List.find?_cons_of_neg _ (by simp [hij])]
        exact ih hmem'

theorem filterMap_range_of_get? (tasks : List DayResult) (F : Nat → Option DayResult)
    (h : ∀ i, i < tasks.length → F i = tasks.get? i) :
    (List.range tasks.length).filterMap F = tasks := by
  induction tasks generalizing F with
  | nil => rfl
  | cons t ts ih =>
    have h0 : F 0 = some t := by simpa using h 0 (by simp)
    rw [List.length_cons, List.range_succ_eq_map, List.filterMap_cons, h0,
      List.filterMap_map]
    exact congrArg (t :: ·)
      (ih (F ∘ Nat.succ) (fun i hi => by simpa using h (i + 1) (by simpa using hi)))

theorem reassemble_settle_perm (tasks : List DayResult) (order : List Nat)
    (hperm : order.Perm (List.range tasks.length)) :
    reassembleByIndex tasks.length (settleInOrder tasks order) = tasks := by
  unfold reassembleByIndex
  apply filterMap_range_of_get?
  intro i hi
  rcases hy : tasks.get? i with - | y
  · rw [List.get?_eq_get hi] at hy
    cases hy
  · have hmem : i ∈ order := hperm.mem_iff.mpr (List.mem_range.mpr hi)
    rw [find?_settleInOrder tasks i y hy order hmem]
    simp [hy]

/-! ## Lemmas: the day loader branch by branch -/

theorem loadDayGeoJSON_success_new (calcD calcE : JSValue → JSValue)
    (entry : JSValue) (index : Nat) (geojson : JSValue)
    (hnew : jsIsNewFormat entry = true) :
    loadDayGeoJSON calcD calcE entry index (.success geojson)
      = { index := index, filename := jsGetField entry "file", ok := true,
          geojson := some geojson,
          dayNumber := jsNonNull (embeddedProp geojson "day") (.num ((index : ℚ) + 1)),
          distance := jsNonNull (jsGetField entry "distance_miles") (.num 0),
          elevation := jsNonNull (jsGetField entry "elevation_gain_ft") (.num 0),
          error := none } := by
  unfold loadDayGeoJSON
  rw [hnew]
  rfl

theorem loadDayGeoJSON_success_legacy_ok (calcD calcE : JSValue → JSValue)
    (entry : JSValue) (index : Nat) (geojson coords : JSValue)
    (hold : jsIsNewFormat entry = false)
    (hex : extractCoords geojson = .ok coords) :
    loadDayGeoJSON calcD calcE entry index (.success geojson)
      = { index := index, filename := some entry, ok := true,
          geojson := some geojson,
          dayNumber := jsNonNull (embeddedProp geojson "day") (.num ((index : ℚ) + 1)),
          distance := jsNonNull (embeddedProp geojson "distance_miles") (calcD coords),
          elevation := jsNonNull (embeddedProp geojson "elevation_gain_ft") (calcE coords),
          error := none } := by
  unfold loadDayGeoJSON
  rw [hold]
  dsimp only [Bool.false_eq_true, if_false]
  rw [hex]
  rfl

theorem loadDayGeoJSON_success_legacy_err (calcD calcE : JSValue → JSValue)
    (entry : JSValue) (index : Nat) (geojson : JSValue) (e : String)
    (hold : jsIsNewFormat entry = false)
    (hex : extractCoords geojson = .error e) :
    loadDayGeoJSON calcD calcE entry index (.success geojson)
      = { index := index, filename := some entry, ok := true,
          geojson := some geojson,
          dayNumber := jsNonNull (embeddedProp geojson "day") (.num ((index : ℚ) + 1)),
          distance := .num 0, elevation := .num 0,
          error := some e } := by
  unfold loadDayGeoJSON
  rw [hold]
  dsimp only [Bool.false_eq_true, if_false]
  rw [hex]
  rfl

/-! ## Smoke tests for the extractor -/

example : extractCoords .null = .ok (.arr []) := by rfl

example :
    extractCoords (.obj [("type", .str "LineString"),
      ("coordinates", .arr [.arr [.num 1, .num 2]])])
      = .ok (.arr [.arr [.num 1, .num 2]]) := by rfl

/-! ## Claim C1 -/

/-- C1 (amended): for every day entry and every fetch/parse outcome, the
`DayResult`'s `geojson` is non-null exactly when `ok` is true, and a
false `ok` always carries an error message; however, a result with `ok`
true can carry an error after all: when a Legacy entry's body parses but
coordinate extraction raises a `TypeError`, `ok` stays true, `geojson`
is set, and `error` records the extraction failure. -/
theorem C1_flag_error_invariant (calcD calcE : JSValue → JSValue) (entry : JSValue)
    (index : Nat) (fetch : FetchOutcome) :
    ((loadDayGeoJSON calcD calcE entry index fetch).geojson.isSome
        = (loadDayGeoJSON calcD calcE entry index fetch).ok)
  ∧ ((loadDayGeoJSON calcD calcE entry index fetch).ok = false →
      (loadDayGeoJSON calcD calcE entry index fetch).error.isSome = true)
  ∧ ((loadDayGeoJSON calcD calcE entry index fetch).ok = true →
      (loadDayGeoJSON calcD calcE entry index fetch).error = none
      ∨ (jsIsNewFormat entry = false ∧ ∃ g e, fetch = .success g
          ∧ extractCoords g = .error e
          ∧ (loadDayGeoJSON calcD calcE entry index fetch).error = some e)) := by
  cases fetch with
  | networkError msg => exact ⟨rfl, fun _ => rfl, fun h => Bool.noConfusion h⟩
  | httpError status => exact ⟨rfl, fun _ => rfl, fun h => Bool.noConfusion h⟩
  | parseError msg => exact ⟨rfl, fun _ => rfl, fun h => Bool.noConfusion h⟩
  | success g =>
    cases hnew : jsIsNewFormat entry with
    | true =>
      rw [loadDayGeoJSON_success_new calcD calcE entry index g hnew]
      exact ⟨rfl, fun h => Bool.noConfusion h, fun _ => Or.inl rfl⟩
    | false =>
      cases hex : extractCoords g with
      | ok coords =>
        rw [loadDayGeoJSON_success_legacy_ok calcD calcE entry index g coords hnew hex]
        exact ⟨rfl, fun h => Bool.noConfusion h, fun _ => Or.inl rfl⟩
      | error e =>
        rw [loadDayGeoJSON_success_legacy_err calcD calcE entry index g e hnew hex]
        exact ⟨rfl, fun h => Bool.noConfusion h,
          fun _ => Or.inr ⟨rfl, g, e, rfl, hex, rfl⟩⟩

/-- C1 counterexample: a Legacy day whose body parses to a
`FeatureCollection` with a `null` entry in `features` produces a result
with `ok = true` that nevertheless carries an error message, refuting
"a result with `ok` true never carries an error message". -/
theorem C1_counterexample :
    (loadDayGeoJSON (fun _ => .num 0) (fun _ => .num 0) (.str "day-1.geojson") 0
        (.success fcWithNullFeature)).ok = true
  ∧ (loadDayGeoJSON (fun _ => .num 0) (fun _ => .num 0) (.str "day-1.geojson") 0
        (.success fcWithNullFeature)).error
      = some "TypeError: cannot read geometry of null" := ⟨rfl, rfl⟩

/-- C1 witness: the amended invariant evaluated on a failing fetch. -/
theorem C1_witness :
    ((loadDayGeoJSON (fun _ => .num 0) (fun _ => .num 0) (.str "w.geojson") 0
        (.networkError "network down")).geojson.isSome
      = (loadDayGeoJSON (fun _ => .num 0) (fun _ => .num 0) (.str "w.geojson") 0
        (.networkError "network down")).ok)
  ∧ (loadDayGeoJSON (fun _ => .num 0) (fun _ => .num 0) (.str "w.geojson") 0
        (.networkError "network down")).error.isSome = true :=
  ⟨(C1_flag_error_invariant (fun _ => .num 0) (fun _ => .num 0) (.str "w.geojson") 0
      (.networkError "network down")).1,
   (C1_flag_error_invariant (fun _ => .num 0) (fun _ => .num 0) (.str "w.geojson") 0
      (.networkError "network down")).2.1 rfl⟩

/-! ## Claim C2 -/

/-- C2: the day loader always returns normally (it is a total function of
the fetch outcome), and on each of the three failure modes (network
error, non-success HTTP status, JSON parse failure) it returns exactly
the record `{ok: false, index, dayNumber: index+1, distance: 0,
elevation: 0, geometry: null, error: message}`; moreover the result of
day `j` in the aggregate depends only on entry `j` and fetch `j`, so one
day's failure cannot affect another day's result. -/
theorem C2_failure_shape_and_isolation (calcD calcE : JSValue → JSValue)
    (entry : JSValue) (index : Nat) (msg pmsg : String) (status : Nat)
    (dayFiles : List JSValue) (fetch : Nat → FetchOutcome) (j : Nat) :
    loadDayGeoJSON calcD calcE entry index (.networkError msg)
      = { index := index,
          filename := if jsIsNewFormat entry then jsGetField entry "file" else some entry,
          ok := false, geojson := none, dayNumber := .num ((index : ℚ) + 1),
          distance := .num 0, elevation := .num 0, error := some msg }
  ∧ loadDayGeoJSON calcD calcE entry index (.httpError status)
      = { index := index,
          filename := if jsIsNewFormat entry then jsGetField entry "file" else some entry,
          ok := false, geojson := none, dayNumber := .num ((index : ℚ) + 1),
          distance := .num 0, elevation := .num 0,
          error := some ("HTTP " ++ toString status) }
  ∧ loadDayGeoJSON calcD calcE entry index (.parseError pmsg)
      = { index := index,
          filename := if jsIsNewFormat entry then jsGetField entry "file" else some entry,
          ok := false, geojson := none, dayNumber := .num ((index : ℚ) + 1),
          distance := .num 0, elevation := .num 0, error := some pmsg }
  ∧ (loadAllDays calcD calcE dayFiles fetch).get? j
      = (dayFiles.get? j).map (fun e => loadDayGeoJSON calcD calcE e j (fetch j)) :=
  ⟨rfl, rfl, rfl, loadAllDays_get? calcD calcE dayFiles fetch j⟩

/-! ## Claim C3 -/

/-- C3: for a Manual-variant entry (an object with a `file` field) whose
geometry loads successfully, `distance` and `elevation` come from the
entry's `distance_miles`/`elevation_gain_ft` (defaulting to `0` when
absent or null), and the result does not depend on the metric
calculator at all — it is never invoked, whatever the geometry. -/
theorem C3_manual_stats_precedence (calcD calcE calcD2 calcE2 : JSValue → JSValue)
    (fields : List (String × JSValue)) (index : Nat) (g : JSValue)
    (_hfile : (jsGetField (.obj fields) "file").isSome = true) :
    (loadDayGeoJSON calcD calcE (.obj fields) index (.success g)).distance
        = jsNonNull (jsGetField (.obj fields) "distance_miles") (.num 0)
  ∧ (loadDayGeoJSON calcD calcE (.obj fields) index (.success g)).elevation
        = jsNonNull (jsGetField (.obj fields) "elevation_gain_ft") (.num 0)
  ∧ loadDayGeoJSON calcD calcE (.obj fields) index (.success g)
      = loadDayGeoJSON calcD2 calcE2 (.obj fields) index (.success g) := by
  have h1 := loadDayGeoJSON_success_new calcD calcE (.obj fields) index g rfl
  have h2 := loadDayGeoJSON_success_new calcD2 calcE2 (.obj fields) index g rfl
  refine ⟨?_, ?_, ?_⟩
  · rw [h1]
  · rw [h1]
  · rw [h1, h2]

/-- C3 witness: a manual day with stats `11.7 mi / 2100 ft` and a
geometry whose coordinates would yield the calculators' `999`; the
manual numbers win and two different calculators give the same result. -/
theorem C3_witness :
    (jsGetField (.obj [("file", .str "day-2.geojson"),
        ("distance_miles", .num (117 / 10)), ("elevation_gain_ft", .num 2100)])
        "file").isSome = true
  ∧ (loadDayGeoJSON (fun _ => .num 999) (fun _ => .num 999)
        (.obj [("file", .str "day-2.geojson"),
          ("distance_miles", .num (117 / 10)), ("elevation_gain_ft", .num 2100)]) 1
        (.success (.obj [("type", .str "LineString"),
          ("coordinates", .arr [.arr [.num 0, .num 0], .arr [.num 1, .num 1]])]))).distance
      = .num (117 / 10)
  ∧ (loadDayGeoJSON (fun _ => .num 999) (fun _ => .num 999)
        (.obj [("file", .str "day-2.geojson"),
          ("distance_miles", .num (117 / 10)), ("elevation_gain_ft", .num 2100)]) 1
        (.success (.obj [("type", .str "LineString"),
          ("coordinates", .arr [.arr [.num 0, .num 0], .arr [.num 1, .num 1]])]))).elevation
      = .num 2100
  ∧ loadDayGeoJSON (fun _ => .num 999) (fun _ => .num 999)
        (.obj [("file", .str "day-2.geojson"),
          ("distance_miles", .num (117 / 10)), ("elevation_gain_ft", .num 2100)]) 1
        (.success (.obj [("type", .str "LineString"),
          ("coordinates", .arr [.arr [.num 0, .num 0], .arr [.num 1, .num 1]])]))
      = loadDayGeoJSON (fun _ => .num 7) (fun _ => .num 8)
        (.obj [("file", .str "day-2.geojson"),
          ("distance_miles", .num (117 / 10)), ("elevation_gain_ft", .num 2100)]) 1
        (.success (.obj [("type", .str "LineString"),
          ("coordinates", .arr [.arr [.num 0, .num 0], .arr [.num 1, .num 1]])])) :=
  ⟨rfl,
   (C3_manual_stats_precedence (fun _ => .num 999) (fun _ => .num 999)
      (fun _ => .num 7) (fun _ => .num 8)
      [("file", .str "day-2.geojson"), ("distance_miles", .num (117 / 10)),
       ("elevation_gain_ft", .num 2100)] 1
      (.obj [("type", .str "LineString"),
        ("coordinates", .arr [.arr [.num 0, .num 0], .arr [.num 1, .num 1]])])
      (by rfl)).1,
   (C3_manual_stats_precedence (fun _ => .num 999) (fun _ => .num 999)
      (fun _ => .num 7) (fun _ => .num 8)
      [("file", .str "day-2.geojson"), ("distance_miles", .num (117 / 10)),
       ("elevation_gain_ft", .num 2100)] 1
      (.obj [("type", .str "LineString"),
        ("coordinates", .arr [.arr [.num 0, .num 0], .arr [.num 1, .num 1]])])
      (by rfl)).2.1,
   (C3_manual_stats_precedence (fun _ => .num 999) (fun _ => .num 999)
      (fun _ => .num 7) (fun _ => .num 8)
      [("file", .str "day-2.geojson"), ("distance_miles", .num (117 / 10)),
       ("elevation_gain_ft", .num 2100)] 1
      (.obj [("type", .str "LineString"),
        ("coordinates", .arr [.arr [.num 0, .num 0], .arr [.num 1, .num 1]])])
      (by rfl)).2.2⟩

/-! ## Claim C4 -/

/-- C4 (amended): for a Legacy entry whose geometry loads successfully
*and whose coordinate extraction completes without error*, `distance` is
the embedded first-feature `distance_miles` when present (verbatim, not
recomputed) and otherwise `calcDistance` of the extracted sequence, and
likewise for `elevation` with `elevation_gain_ft`/`calcElevationGain`;
when the extraction raises instead (it runs before the embedded
properties are consulted), both metrics remain `0` and the error is
recorded, even if embedded properties are present. -/
theorem C4_legacy_embedded_or_computed (calcD calcE : JSValue → JSValue)
    (s : String) (index : Nat) (g : JSValue) :
    (∀ coords, extractCoords g = .ok coords →
        (loadDayGeoJSON calcD calcE (.str s) index (.success g)).distance
            = jsNonNull (embeddedProp g "distance_miles") (calcD coords)
      ∧ (loadDayGeoJSON calcD calcE (.str s) index (.success g)).elevation
            = jsNonNull (embeddedProp g "elevation_gain_ft") (calcE coords))
  ∧ (∀ e, extractCoords g = .error e →
        (loadDayGeoJSON calcD calcE (.str s) index (.success g)).distance = .num 0
      ∧ (loadDayGeoJSON calcD calcE (.str s) index (.success g)).elevation = .num 0
      ∧ (loadDayGeoJSON calcD calcE (.str s) index (.success g)).error = some e) := by
  constructor
  · intro coords hex
    rw [loadDayGeoJSON_success_legacy_ok calcD calcE (.str s) index g coords rfl hex]
    exact ⟨rfl, rfl⟩
  · intro e hex
    rw [loadDayGeoJSON_success_legacy_err calcD calcE (.str s) index g e rfl hex]
    exact ⟨rfl, rfl, rfl⟩

/-- C4 counterexample: a Legacy day whose first feature embeds
`distance_miles = 5`, followed by a `null` feature.  The resource loads
and parses successfully and the embedded property is present, yet the
result's `distance` is `0` (and not the embedded `5`): the extraction
scan raises on the `null` feature before the embedded properties are
used, refuting the claim as stated. -/
theorem C4_counterexample :
    embeddedProp fcEmbeddedThenNull "distance_miles" = some (.num 5)
  ∧ (loadDayGeoJSON (fun _ => .num 99) (fun _ => .num 99) (.str "day-1.geojson") 0
        (.success fcEmbeddedThenNull)).distance = .num 0
  ∧ (loadDayGeoJSON (fun _ => .num 99) (fun _ => .num 99) (.str "day-1.geojson") 0
        (.success fcEmbeddedThenNull)).error
      = some "TypeError: cannot read geometry of null" := ⟨rfl, rfl, rfl⟩

/-- C4 witness: a Legacy day with an embedded `distance_miles = 14.2` and
no embedded elevation; the embedded distance is used verbatim and the
elevation falls back to the calculator's value. -/
theorem C4_witness :
    extractCoords (.obj [("type", .str "FeatureCollection"),
        ("features", .arr [.obj [("type", .str "Feature"),
          ("properties", .obj [("distance_miles", .num (71 / 5))]),
          ("geometry", .obj [("type", .str "LineString"),
            ("coordinates", .arr [.arr [.num 0, .num 0], .arr [.num 1, .num 1]])])]])])
      = .ok (.arr [.arr [.num 0, .num 0], .arr [.num 1, .num 1]])
  ∧ (loadDayGeoJSON (fun _ => .num 99) (fun _ => .num 44) (.str "day-1.geojson") 0
      (.success (.obj [("type", .str "FeatureCollection"),
        ("features", .arr [.obj [("type", .str "Feature"),
          ("properties", .obj [("distance_miles", .num (71 / 5))]),
          ("geometry", .obj [("type", .str "LineString"),
            ("coordinates", .arr [.arr [.num 0, .num 0], .arr [.num 1, .num 1]])])]])]))).distance
      = .num (71 / 5)
  ∧ (loadDayGeoJSON (fun _ => .num 99) (fun _ => .num 44) (.str "day-1.geojson") 0
      (.success (.obj [("type", .str "FeatureCollection"),
        ("features", .arr [.obj [("type", .str "Feature"),
          ("properties", .obj [("distance_miles", .num (71 / 5))]),
          ("geometry", .obj [("type", .str "LineString"),
            ("coordinates", .arr [.arr [.num 0, .num 0], .arr [.num 1, .num 1]])])]])]))).elevation
      = .num 44 :=
  ⟨rfl,
   ((C4_legacy_embedded_or_computed (fun _ => .num 99) (fun _ => .num 44)
      "day-1.geojson" 0
      (.obj [("type", .str "FeatureCollection"),
        ("features", .arr [.obj [("type", .str "Feature"),
          ("properties", .obj [("distance_miles", .num (71 / 5))]),
          ("geometry", .obj [("type", .str "LineString"),
            ("coordinates", .arr [.arr [.num 0, .num 0], .arr [.num 1, .num 1]])])]])])).1
      (.arr [.arr [.num 0, .num 0], .arr [.num 1, .num 1]]) rfl).1,
   ((C4_legacy_embedded_or_computed (fun _ => .num 99) (fun _ => .num 44)
      "day-1.geojson" 0
      (.obj [("type", .str "FeatureCollection"),
        ("features", .arr [.obj [("type", .str "Feature"),
          ("properties", .obj [("distance_miles", .num (71 / 5))]),
          ("geometry", .obj [("type", .str "LineString"),
            ("coordinates", .arr [.arr [.num 0, .num 0], .arr [.num 1, .num 1]])])]])])).1
      (.arr [.arr [.num 0, .num 0], .arr [.num 1, .num 1]]) rfl).2⟩

/-! ## Claim C5 -/

/-- C5: on every well-formed GeoJSON value (honest type tags), the
extractor returns exactly the specified sequence: for a
`FeatureCollection` the coordinates of the first feature whose geometry
yields a non-empty sequence (earlier unsupported/empty features skipped,
never merged); for a `Feature` the extraction of its geometry; for a
bare `LineString` its coordinates unchanged; for a bare
`MultiLineString` the concatenation of its member sequences in listed
order; and the empty sequence for any other kind. -/
theorem C5_extractor_matches_spec (g : GeoJSON) (h : g.tagsOK = true) :
    extractCoords g.toJS = .ok (.arr g.specCoords) :=
  extractCoords_toJS g h

/-- C5 witness: a collection whose first feature is an unsupported
`Point` and whose second is a one-point `LineString`; the extractor
skips the first and returns the second's coordinates. -/
theorem C5_witness :
    GeoJSON.tagsOK (GeoJSON.featureCollection
      [{ geometry := some (.otherKind "Point"), properties := .null },
       { geometry := some (.lineString [{ lon := 1, lat := 2, ele := some 3 }]),
         properties := .null }]) = true
  ∧ extractCoords (GeoJSON.featureCollection
      [{ geometry := some (.otherKind "Point"), properties := .null },
       { geometry := some (.lineString [{ lon := 1, lat := 2, ele := some 3 }]),
         properties := .null }]).toJS
      = .ok (.arr [.arr [.num 1, .num 2, .num 3]]) :=
  ⟨rfl,
   C5_extractor_matches_spec (GeoJSON.featureCollection
      [{ geometry := some (.otherKind "Point"), properties := .null },
       { geometry := some (.lineString [{ lon := 1, lat := 2, ele := some 3 }]),
         properties := .null }]) rfl⟩

/-! ## Claim C6 -/

/-- C6 counterexample: the extractor does raise for some malformed input:
on a `FeatureCollection` whose `features` array contains a `null`
entry, the loop dereferences `feature.geometry` on `null` and a
`TypeError` escapes, refuting "raises no error for every input". -/
theorem C6_counterexample :
    extractCoords fcWithNullFeature
      = .error "TypeError: cannot read geometry of null" := rfl

/-- C6 (amended): the extractor raises no error and returns the empty
sequence for every falsy input (`null`, `0`, `""`, `false`), and
returns normally on every well-formed GeoJSON value; but malformed
input can raise a `TypeError` (a `null` entry inside `features`, a
truthy non-iterable `features` value, or a truthy non-array
`MultiLineString` coordinates value). -/
theorem C6_no_raise_for_wellformed :
    (∀ v : JSValue, jsTruthy v = false → extractCoords v = .ok (.arr []))
  ∧ (∀ g : GeoJSON, g.tagsOK = true → (extractCoords g.toJS).isOk = true) := by
  constructor
  · intro v hv
    simp [extractCoords, hv]
  · intro g hg
    rw [extractCoords_toJS g hg]
    rfl

/-- C6 witness: the amended guarantee evaluated at `null` and at a bare
unsupported `Point` geometry. -/
theorem C6_witness :
    jsTruthy .null = false
  ∧ extractCoords .null = .ok (.arr [])
  ∧ GeoJSON.tagsOK (.bare (.otherKind "Point")) = true
  ∧ (extractCoords (GeoJSON.bare (GeomKind.otherKind "Point")).toJS).isOk = true :=
  ⟨rfl, C6_no_raise_for_wellformed.1 .null rfl, rfl,
   C6_no_raise_for_wellformed.2 (.bare (.otherKind "Point")) rfl⟩

/-! ## Claim C7 -/

/-- C7: for every ordered day-entry list, the aggregate result list has
the same length as the input, the result at position `i` has index `i`,
and the assembled list is the same for every completion order of the
underlying fetches (any permutation of the indices): `Promise.all`'s
join reassembles by original position, not completion order. -/
theorem C7_order_preserved (calcD calcE : JSValue → JSValue)
    (dayFiles : List JSValue) (fetch : Nat → FetchOutcome) (order : List Nat)
    (hperm : order.Perm (List.range dayFiles.length)) :
    loadAllDaysSched calcD calcE dayFiles fetch order
        = loadAllDays calcD calcE dayFiles fetch
  ∧ (loadAllDays calcD calcE dayFiles fetch).length = dayFiles.length
  ∧ ∀ (i : Nat) (hi : i < (loadAllDays calcD calcE dayFiles fetch).length),
      ((loadAllDays calcD calcE dayFiles fetch).get ⟨i, hi⟩).index = i := by
  have hlen := loadAllDays_length calcD calcE dayFiles fetch
  refine ⟨?_, hlen, ?_⟩
  · unfold loadAllDaysSched
    rw [← hlen]
    exact reassemble_settle_perm _ order (by rw [hlen]; exact hperm)
  · intro i hi
    have hd : i < dayFiles.length := hlen ▸ hi
    have h1 := loadAllDays_get? calcD calcE dayFiles fetch i
    rw [List.get?_eq_get hi, List.get?_eq_get hd] at h1
    simp only [Option.map_some'] at h1
    rw [Option.some.inj h1]
    exact loadDayGeoJSON_index calcD calcE (dayFiles.get ⟨i, hd⟩) i (fetch i)

/-- C7 witness: three days whose fetches complete in the order 3, 1, 2;
the assembled list still equals the declaration-ordered one and has
length 3. -/
theorem C7_witness :
    ([2, 0, 1] : List Nat).Perm
      (List.range ([JSValue.str "a.geojson", .str "b.geojson", .str "c.geojson"] :
        List JSValue).length)
  ∧ loadAllDaysSched (fun _ => .num 0) (fun _ => .num 0)
        [JSValue.str "a.geojson", .str "b.geojson", .str "c.geojson"]
        (fun _ => .networkError "offline") [2, 0, 1]
      = loadAllDays (fun _ => .num 0) (fun _ => .num 0)
        [JSValue.str "a.geojson", .str "b.geojson", .str "c.geojson"]
        (fun _ => .networkError "offline")
  ∧ (loadAllDays (fun _ => .num 0) (fun _ => .num 0)
        [JSValue.str "a.geojson", .str "b.geojson", .str "c.geojson"]
        (fun _ => .networkError "offline")).length = 3 :=
  ⟨by decide,
   (C7_order_preserved (fun _ => .num 0) (fun _ => .num 0)
      [JSValue.str "a.geojson", .str "b.geojson", .str "c.geojson"]
      (fun _ => .networkError "offline") [2, 0, 1] (by decide)).1,
   (C7_order_preserved (fun _ => .num 0) (fun _ => .num 0)
      [JSValue.str "a.geojson", .str "b.geojson", .str "c.geojson"]
      (fun _ => .networkError "offline") [2, 0, 1] (by decide)).2.1⟩

/-! ## Claim C8 -/

theorem sumNums_go (vs : List JSValue) :
    ∀ a : ℚ, vs.all isNumVal = true →
      vs.foldl
        (fun acc v =>
          match acc, v with
          | some a, .num b => some (a + b)
          | _, _ => none)
        (some a)
      = some (a + (vs.map numValOf).sum) := by
  induction vs with
  | nil => intro a _; simp
  | cons v rest ih =>
    intro a h
    rw [List.all_cons, Bool.and_eq_true] at h
    obtain ⟨hv, hrest⟩ := h
    cases v with
    | num q =>
      rw [List.foldl_cons]
      rw [ih (a + q) hrest]
      simp [numValOf, add_assoc]
    | null => exact absurd hv (by simp [isNumVal])
    | bool b => exact absurd hv (by simp [isNumVal])
    | str s => exact absurd hv (by simp [isNumVal])
    | arr xs => exact absurd hv (by simp [isNumVal])
    | obj fields => exact absurd hv (by simp [isNumVal])

theorem sumNums_all_num (vs : List JSValue) (h : vs.all isNumVal = true) :
    sumNums vs = some ((vs.map numValOf).sum) := by
  unfold sumNums
  rw [sumNums_go vs 0 h]
  simp

/-- C8 (amended): for every result list whose `ok` entries carry numeric
distance and elevation, the totals are the sums of `distance` and
`elevation` over exactly the `ok` results (failed days contribute
nothing), and `vertPerMile` equals `totalElevation / totalDistance`
precisely when `totalDistance > 0` and is unavailable whenever
`totalDistance ≤ 0` — in particular, but not only, when it is `0`. -/
theorem C8_totals_over_ok_days (rs : List DayResult)
    (h : rs.all (fun r => !r.ok || (isNumVal r.distance && isNumVal r.elevation)) = true) :
    computeTotals rs = some
      { totalDistance :=
          ((rs.filter (fun r => r.ok)).map (fun r => numValOf r.distance)).sum,
        totalElevation :=
          ((rs.filter (fun r => r.ok)).map (fun r => numValOf r.elevation)).sum,
        vertPerMile :=
          if 0 < ((rs.filter (fun r => r.ok)).map (fun r => numValOf r.distance)).sum then
            some (((rs.filter (fun r => r.ok)).map (fun r => numValOf r.elevation)).sum
              / ((rs.filter (fun r => r.ok)).map (fun r => numValOf r.distance)).sum)
          else none } := by
  have hok : ∀ r ∈ rs.filter (fun r => r.ok),
      isNumVal r.distance = true ∧ isNumVal r.elevation = true := by
    intro r hr
    obtain ⟨hrs, hv⟩ := List.mem_filter.mp hr
    have hall := List.all_eq_true.mp h r hrs
    rw [hv] at hall
    simpa using hall
  have hd : ((rs.filter (fun r => r.ok)).map (fun r => r.distance)).all isNumVal = true := by
    rw [List.all_eq_true]
    intro v hv
    obtain ⟨r, hr, hrv⟩ := List.mem_map.mp hv
    rw [← hrv]
    exact (hok r hr).1
  have he : ((rs.filter (fun r => r.ok)).map (fun r => r.elevation)).all isNumVal = true := by
    rw [List.all_eq_true]
    intro v hv
    obtain ⟨r, hr, hrv⟩ := List.mem_map.mp hv
    rw [← hrv]
    exact (hok r hr).2
  unfold computeTotals
  dsimp only
  rw [sumNums_all_num _ hd, sumNums_all_num _ he]
  simp only [List.map_map]
  rfl

/-- C8 counterexample: a manual day with `distance_miles = -1` (produced
by the loader itself) yields `totalDistance = -1 ≠ 0` while
`vertPerMile` is unavailable, refuting "undefined exactly when
`totalDistance == 0`". -/
theorem C8_counterexample :
    (computeTotals [loadDayGeoJSON (fun _ => .num 0) (fun _ => .num 0)
        (.obj [("file", .str "day-1.geojson"), ("distance_miles", .num (-1))]) 0
        (.success (.obj []))]).map (fun t => (t.totalDistance, t.vertPerMile))
      = some (-1, none)
  ∧ (-1 : ℚ) ≠ 0 := by
  refine ⟨?_, by norm_num⟩
  have hload : loadDayGeoJSON (fun _ => .num 0) (fun _ => .num 0)
      (.obj [("file", .str "day-1.geojson"), ("distance_miles", .num (-1))]) 0
      (.success (.obj []))
    = { index := 0, filename := some (.str "day-1.geojson"), ok := true,
        geojson := some (.obj []), dayNumber := .num ((0 : ℚ) + 1),
        distance := .num (-1), elevation := .num 0, error := none } := rfl
  rw [hload, C8_totals_over_ok_days _ (by rfl)]
  norm_num [List.filter, numValOf]

/-- C8 witness: the specification's end-to-end example — one ok day with
`14.2 mi / 3800 ft`, one ok day with `11.7 mi / 2100 ft`, one failed
day — totals `25.9 mi`, `5900 ft`, vert-per-mile `5900 / 25.9`. -/
theorem C8_witness :
    ([{ index := 0, filename := some (.str "day-1.geojson"), ok := true,
        geojson := some (.obj []), dayNumber := .num 1,
        distance := .num (71 / 5), elevation := .num 3800, error := none },
      { index := 1, filename := some (.str "day-2.geojson"), ok := true,
        geojson := some (.obj []), dayNumber := .num 2,
        distance := .num (117 / 10), elevation := .num 2100, error := none },
      { index := 2, filename := some (.str "day-3.geojson"), ok := false,
        geojson := none, dayNumber := .num 3,
        distance := .num 0, elevation := .num 0,
        error := some "HTTP 404" }] : List DayResult).all
      (fun r => !r.ok || (isNumVal r.distance && isNumVal r.elevation)) = true
  ∧ computeTotals
      [{ index := 0, filename := some (.str "day-1.geojson"), ok := true,
         geojson := some (.obj []), dayNumber := .num 1,
         distance := .num (71 / 5), elevation := .num 3800, error := none },
       { index := 1, filename := some (.str "day-2.geojson"), ok := true,
         geojson := some (.obj []), dayNumber := .num 2,
         distance := .num (117 / 10), elevation := .num 2100, error := none },
       { index := 2, filename := some (.str "day-3.geojson"), ok := false,
         geojson := none, dayNumber := .num 3,
         distance := .num 0, elevation := .num 0,
         error := some "HTTP 404" }]
      = some { totalDistance := 259 / 10, totalElevation := 5900,
               vertPerMile := some (59000 / 259) } := by
  refine ⟨rfl, ?_⟩
  rw [C8_totals_over_ok_days
     [{ index := 0, filename := some (.str "day-1.geojson"), ok := true,
        geojson := some (.obj []), dayNumber := .num 1,
        distance := .num (71 / 5), elevation := .num 3800, error := none },
      { index := 1, filename := some (.str "day-2.geojson"), ok := true,
        geojson := some (.obj []), dayNumber := .num 2,
        distance := .num (117 / 10), elevation := .num 2100, error := none },
      { index := 2, filename := some (.str "day-3.geojson"), ok := false,
        geojson := none, dayNumber := .num 3,
        distance := .num 0, elevation := .num 0,
        error := some "HTTP 404" }] (by rfl)]
  norm_num [List.filter, numValOf]

/-! ## Claim C9 -/

theorem NonnegNum_jsNonNull (x : Option JSValue) (d : JSValue)
    (hx : ∀ v, x = some v → v ≠ .null → NonnegNum v) (hd : NonnegNum d) :
    NonnegNum (jsNonNull x d) := by
  cases x with
  | none => exact hd
  | some v =>
    cases v with
    | null => exact hd
    | bool b => exact hx _ rfl (fun hh => JSValue.noConfusion hh)
    | num q => exact hx _ rfl (fun hh => JSValue.noConfusion hh)
    | str s => exact hx _ rfl (fun hh => JSValue.noConfusion hh)
    | arr xs => exact hx _ rfl (fun hh => JSValue.noConfusion hh)
    | obj fields => exact hx _ rfl (fun hh => JSValue.noConfusion hh)

/-- C9 (amended): the result's `distance` and `elevation` are
non-negative numbers provided the values the loader uses verbatim are:
the calculators' outputs (which the specification's haversine/ascending
sums always are), the Manual entry's `distance_miles` and
`elevation_gain_ft` when present, and the Legacy geometry's embedded
first-feature properties when present.  Without those provisos the
claim fails: verbatim values are not clamped. -/
theorem C9_nonneg_under_nonneg_inputs (calcD calcE : JSValue → JSValue)
    (entry : JSValue) (index : Nat) (fetch : FetchOutcome)
    (hcD : ∀ c, NonnegNum (calcD c)) (hcE : ∀ c, NonnegNum (calcE c))
    (hmD : ∀ v, jsGetField entry "distance_miles" = some v → v ≠ .null → NonnegNum v)
    (hmE : ∀ v, jsGetField entry "elevation_gain_ft" = some v → v ≠ .null → NonnegNum v)
    (hgD : ∀ g v, fetch = .success g → embeddedProp g "distance_miles" = some v →
        v ≠ .null → NonnegNum v)
    (hgE : ∀ g v, fetch = .success g → embeddedProp g "elevation_gain_ft" = some v →
        v ≠ .null → NonnegNum v) :
    NonnegNum (loadDayGeoJSON calcD calcE entry index fetch).distance
  ∧ NonnegNum (loadDayGeoJSON calcD calcE entry index fetch).elevation := by
  have h0 : NonnegNum (.num 0) := ⟨0, rfl, le_refl 0⟩
  cases fetch with
  | networkError msg => exact ⟨h0, h0⟩
  | httpError status => exact ⟨h0, h0⟩
  | parseError msg => exact ⟨h0, h0⟩
  | success g =>
    cases hnew : jsIsNewFormat entry with
    | true =>
      rw [loadDayGeoJSON_success_new calcD calcE entry index g hnew]
      exact ⟨NonnegNum_jsNonNull _ _ hmD h0, NonnegNum_jsNonNull _ _ hmE h0⟩
    | false =>
      cases hex : extractCoords g with
      | ok coords =>
        rw [loadDayGeoJSON_success_legacy_ok calcD calcE entry index g coords hnew hex]
        exact ⟨NonnegNum_jsNonNull _ _ (fun v hv hnn => hgD g v rfl hv hnn) (hcD coords),
               NonnegNum_jsNonNull _ _ (fun v hv hnn => hgE g v rfl hv hnn) (hcE coords)⟩
      | error e =>
        rw [loadDayGeoJSON_success_legacy_err calcD calcE entry index g e hnew hex]
        exact ⟨h0, h0⟩

/-- C9 counterexample: a Manual entry with `distance_miles = -5` whose
resource loads successfully produces `distance = -5 < 0` — the loader
uses the verbatim value without clamping, refuting non-negativity. -/
theorem C9_counterexample :
    (loadDayGeoJSON (fun _ => .num 0) (fun _ => .num 0)
        (.obj [("file", .str "day-1.geojson"), ("distance_miles", .num (-5))]) 0
        (.success (.obj []))).distance = .num (-5)
  ∧ (-5 : ℚ) < 0 := ⟨rfl, by norm_num⟩

/-- C9 witness: a Legacy day with an empty `LineString` and calculators
returning `2` and `3`; both metrics are non-negative numbers. -/
theorem C9_witness :
    NonnegNum (loadDayGeoJSON (fun _ => .num 2) (fun _ => .num 3)
        (.str "day-1.geojson") 0
        (.success (.obj [("type", .str "LineString"),
          ("coordinates", .arr [])]))).distance
  ∧ NonnegNum (loadDayGeoJSON (fun _ => .num 2) (fun _ => .num 3)
        (.str "day-1.geojson") 0
        (.success (.obj [("type", .str "LineString"),
          ("coordinates", .arr [])]))).elevation :=
  C9_nonneg_under_nonneg_inputs (fun _ => .num 2) (fun _ => .num 3)
    (.str "day-1.geojson") 0
    (.success (.obj [("type", .str "LineString"), ("coordinates", .arr [])]))
    (fun _ => ⟨2, rfl, by norm_num⟩) (fun _ => ⟨3, rfl, by norm_num⟩)
    (fun v hv => Option.noConfusion hv) (fun v hv => Option.noConfusion hv)
    (fun g v hg hv => by
      cases hg
      exact Option.noConfusion hv)
    (fun g v hg hv => by
      cases hg
      exact Option.noConfusion hv)

/-! ## Claim C10 -/

theorem initTripPage_days_not_array (calcD calcE : JSValue → JSValue)
    (tripId dataRoot : String) (meta : JSValue) (hnn : meta ≠ .null)
    (hdays : daysIsArray meta = false) (dayFetch : Nat → FetchOutcome) :
    initTripPage calcD calcE tripId dataRoot (.success meta) dayFetch
      = .configError (jsOr (jsGetField meta "title") (.str tripId))
          "No day files listed in meta.json." := by
  cases meta with
  | null => exact absurd rfl hnn
  | bool b => rfl
  | num q => rfl
  | str s => rfl
  | arr xs => rfl
  | obj fields =>
    unfold initTripPage
    simp only [jsGetField]
    unfold daysIsArray jsGetField at hdays
    dsimp only at hdays
    rcases hget : lookupField fields "days" with - | v
    · rfl
    · rw [hget] at hdays
      cases v with
      | arr xs => simp at hdays
      | null => rfl
      | bool b => rfl
      | num q => rfl
      | str s => rfl
      | obj fs => rfl

/-- C10: when `meta.days` is missing or not an array, the pipeline
behaves exactly as with an explicitly empty day list: the
configuration-level map error is reported with the header rendered
(`configError` carries the header title), and no day loading or
aggregation is attempted — the outcome does not depend on the day
fetches at all. -/
theorem C10_days_not_array (calcD calcE : JSValue → JSValue)
    (tripId dataRoot : String) (meta : JSValue)
    (dayFetch dayFetch2 : Nat → FetchOutcome)
    (hnn : meta ≠ .null) (hdays : daysIsArray meta = false) :
    initTripPage calcD calcE tripId dataRoot (.success meta) dayFetch
      = .configError (jsOr (jsGetField meta "title") (.str tripId))
          "No day files listed in meta.json."
  ∧ initTripPage calcD calcE tripId dataRoot (.success meta) dayFetch
      = initTripPage calcD calcE tripId dataRoot (.success meta) dayFetch2 :=
  ⟨initTripPage_days_not_array calcD calcE tripId dataRoot meta hnn hdays dayFetch,
   (initTripPage_days_not_array calcD calcE tripId dataRoot meta hnn hdays dayFetch).trans
     (initTripPage_days_not_array calcD calcE tripId dataRoot meta hnn hdays
       dayFetch2).symm⟩

/-- C10 witness: a metadata object whose `days` field is the string
`"oops"`; the page reports the map configuration error with the header
title rendered, for any day-fetch behaviour. -/
theorem C10_witness :
    daysIsArray (.obj [("title", .str "My Trip"), ("days", .str "oops")]) = false
  ∧ initTripPage (fun _ => .num 0) (fun _ => .num 0) "trip" "../data"
      (.success (.obj [("title", .str "My Trip"), ("days", .str "oops")]))
      (fun _ => .networkError "offline")
    = .configError (.str "My Trip") "No day files listed in meta.json." :=
  ⟨rfl,
   (C10_days_not_array (fun _ => .num 0) (fun _ => .num 0) "trip" "../data"
      (.obj [("title", .str "My Trip"), ("days", .str "oops")])
      (fun _ => .networkError "offline") (fun _ => .parseError "bad json")
      (fun hh => JSValue.noConfusion hh) rfl).1⟩
